import Mathlib

/-!
Verification development for the DBUSE RAG chatbot core
(`rag_chatbot.py`, `utils/document_base_manager.py`).

The Python code is shallowly embedded: the registry metadata dictionary
becomes an association list, file-system and external-service effects
become explicit parameters or oracle functions, and in-place mutation
becomes state passing.  External services (the embedding/generation
calls hidden inside the LangChain chains) are oracles whose invocation
count is tracked explicitly so that "performs no service call" claims
are statable.
-/

/-- Record stored for each document base in `DocumentBaseManager.metadata`
(`document_base_manager.py`, `create_document_base`).  Timestamps are
abstracted to `Nat` (the code stores ISO strings / epoch seconds). -/
structure BaseInfo where
  created_at : Nat
  updated_at : Nat
  description : String
  directory : String
  num_documents : Int
  num_chunks : Int
  documents : List String
deriving Repr, DecidableEq

/-- First-match lookup in an association list: the embedding of a Python
`dict` read `m[k]` / `k in m`. -/
def alookup {α : Type} : List (String × α) → String → Option α
  | [], _ => none
  | (k', v) :: rest, k => if k' = k then some v else alookup rest k

/-- Replace the binding of `k` (the embedding of `m[k] = v` for a key
already present; appends if absent). -/
def aset {α : Type} : List (String × α) → String → α → List (String × α)
  | [], k, v => [(k, v)]
  | (k', v') :: rest, k, v =>
      if k' = k then (k, v) :: rest else (k', v') :: aset rest k v

/-- Remove the binding of `k`: the embedding of `del m[k]`. -/
def aerase {α : Type} : List (String × α) → String → List (String × α)
  | [], _ => []
  | (k', v') :: rest, k =>
      if k' = k then rest else (k', v') :: aerase rest k

/-- Embedding of `os.path.basename` for `/`-separated paths: the suffix
after the last `/` (the whole string when there is no `/`). -/
def basename (p : String) : String :=
  ⟨(p.data.reverse.takeWhile (fun c => c ≠ '/')).reverse⟩

/-- Embedding of the sanitisation in `create_document_base`:
`"".join(c if c.isalnum() else "_" for c in name)`. -/
def sanitizeName (name : String) : String :=
  name.map (fun c => if c.isAlphanum then c else '_')

/-- The in-memory state of a `DocumentBaseManager`: its base directory and
the `metadata` mapping (persistence of the JSON snapshot is not modelled;
the claims are about the mapping itself). -/
structure Manager where
  base_directory : String
  metadata : List (String × BaseInfo)
deriving Repr, DecidableEq

/-- Embedding of `DocumentBaseManager.create_document_base`.  `now` stands
for both `int(time.time())` and `datetime.now().isoformat()`.  Returns the
new base's directory path together with the updated manager, or the
`ValueError` message when the name already exists. -/
def create_document_base (m : Manager) (now : Nat) (name description : String) :
    Except String (String × Manager) :=
  match alookup m.metadata name with
  | some _ => .error ("Document base '" ++ name ++ "' already exists")
  | none =>
      let safe_name := sanitizeName name
      let dir_name := safe_name ++ "_" ++ toString now
      let info : BaseInfo :=
        { created_at := now
          updated_at := now
          description := description
          directory := dir_name
          num_documents := 0
          num_chunks := 0
          documents := [] }
      .ok (m.base_directory ++ "/" ++ dir_name,
           { m with metadata := m.metadata ++ [(name, info)] })

/-- Embedding of `DocumentBaseManager.get_document_base_path`. -/
def get_document_base_path (m : Manager) (name : String) : Except String String :=
  match alookup m.metadata name with
  | none => .error ("Document base '" ++ name ++ "' not found")
  | some info => .ok (m.base_directory ++ "/" ++ info.directory)

/-- Embedding of `DocumentBaseManager.update_document_base`: additive
counter increments, timestamp bump, and appending the basenames of the
given document paths (skipped when the list is empty, mirroring Python's
truthiness test `if documents:`). -/
def update_document_base (m : Manager) (now : Nat) (name : String)
    (num_documents num_chunks : Int) (documents : List String) :
    Except String Manager :=
  match alookup m.metadata name with
  | none => .error ("Document base '" ++ name ++ "' not found")
  | some info =>
      let info' : BaseInfo :=
        { info with
          updated_at := now
          num_documents := info.num_documents + num_documents
          num_chunks := info.num_chunks + num_chunks
          documents :=
            if documents.isEmpty then info.documents
            else info.documents ++ documents.map basename }
      .ok { m with metadata := aset m.metadata name info' }

/-- Abstract file system for `delete_document_base`: which directory paths
exist, and on which paths a recursive removal (`shutil.rmtree`) raises.
Document-base directories are treated as atomic entries. -/
structure FS where
  paths : List String
  failing : List String
deriving Repr, DecidableEq

/-- Embedding of `os.path.exists` on the abstract file system. -/
def FS.pathExists (fs : FS) (p : String) : Bool :=
  fs.paths.contains p

/-- Embedding of `shutil.rmtree`: fails (raising `OSError`) on paths in
`failing`, otherwise removes the path. -/
def FS.rmtree (fs : FS) (p : String) : Except String FS :=
  if fs.failing.contains p then .error "OSError"
  else .ok { fs with paths := fs.paths.filter (fun q => q ≠ p) }

/-- Embedding of `DocumentBaseManager.delete_document_base`.  The result
carries the manager and file system at the point the call finished or the
exception escaped, plus the outcome, so the mutation order of the source
(storage removal strictly before the `del` on the metadata dict) is
observable. -/
def delete_document_base (m : Manager) (fs : FS) (name : String) :
    Manager × FS × Except String Unit :=
  match alookup m.metadata name with
  | none => (m, fs, .error ("Document base '" ++ name ++ "' not found"))
  | some info =>
      let dir_path := m.base_directory ++ "/" ++ info.directory
      match (if fs.pathExists dir_path then fs.rmtree dir_path else .ok fs) with
      | .error e => (m, fs, .error e)
      | .ok fs' =>
          ({ m with metadata := aerase m.metadata name }, fs', .ok ())

/-- Modelled from the spec: `utils/vector_store.py` is not under `src/`.
Spec section 4.3: a per-base persistent store of chunks; it loads its
content from the base's storage location at construction (an empty or
missing location yields zero entries), `addTexts` appends, and `clear`
deletes all stored entries while the index remains usable.  Embeddings
and metadata are irrelevant to the claims and are not carried. -/
structure VectorStore where
  persist_directory : String
  texts : List String
deriving Repr, DecidableEq

/-- Modelled from the spec: constructing a `VectorStore` over a directory
loads whatever is persisted there (`persisted` is the ambient map from
directory to stored chunk texts); missing directory gives zero entries. -/
def VectorStore.init (persisted : List (String × List String)) (dir : String) :
    VectorStore :=
  { persist_directory := dir, texts := (alookup persisted dir).getD [] }

/-- Modelled from the spec: `addTexts` stores the chunks (appending). -/
def VectorStore.add_texts (vs : VectorStore) (chunks : List String) : VectorStore :=
  { vs with texts := vs.texts ++ chunks }

/-- Modelled from the spec: `clear()` deletes all stored vectors/text. -/
def VectorStore.clear (vs : VectorStore) : VectorStore :=
  { vs with texts := [] }

/-- The state of a `RAGChatbot` relevant to the claims: the active base
name, the owned `DocumentBaseManager`, the active vector store, whether
`retriever` / `qa_chain` are set (they are either `None` or built), and
the conversation history of (question, answer) pairs. -/
structure Chat where
  current_document_base : Option String
  manager : Manager
  vector_store : VectorStore
  retriever_set : Bool
  qa_chain_set : Bool
  conversation_history : List (String × String)
deriving Repr, DecidableEq

/-- Embedding of `RAGChatbot._switch_document_base`: resolve the base path
via the registry (raising `KeyError` when absent), rebuild the vector
store over that path, set the current base, and set retriever and QA
chain.  Note: the source does not touch `conversation_history` here. -/
def switch_document_base (c : Chat) (persisted : List (String × List String))
    (name : String) : Except String Chat :=
  match get_document_base_path c.manager name with
  | .error e => .error e
  | .ok path =>
      .ok { c with
            vector_store := VectorStore.init persisted path
            current_document_base := some name
            retriever_set := true
            qa_chain_set := true }

/-- Embedding of the base-selection prelude of `RAGChatbot.load_documents`
(lines 131-147): when a target base name is given and differs from the
active one, switch to it if registered, otherwise create it (setting the
current base and rebuilding the vector store over the fresh directory,
without touching retriever or QA chain). -/
def load_switch_step (c : Chat) (now : Nat)
    (persisted : List (String × List String))
    (document_base_name : Option String) : Except String Chat :=
  match document_base_name with
  | none => .ok c
  | some name =>
      if some name = c.current_document_base then .ok c
      else
        match get_document_base_path c.manager name with
        | .ok _ => switch_document_base c persisted name
        | .error _ =>
            match create_document_base c.manager now name "" with
            | .error e => .error e
            | .ok (base_path, m') =>
                .ok { c with
                      manager := m'
                      current_document_base := some name
                      vector_store := VectorStore.init persisted base_path }

/-- Embedding of the per-file processing loop of `load_documents` (lines
153-169, with `directory_path = None`): each file is chunked through the
`processFile` oracle (the `DocumentProcessor`); failures are logged and
skipped, successes extend the accumulated chunks and bump the file
count. -/
def process_files (processFile : String → Except String (List String))
    (file_paths : List String) : List String × Nat :=
  file_paths.foldl
    (fun acc fp =>
      match processFile fp with
      | .ok chunks => (acc.1 ++ chunks, acc.2 + 1)
      | .error _ => acc)
    ([], 0)

/-- Embedding of `RAGChatbot.load_documents` with `directory_path = None`.
After the base-selection prelude, processed chunks are added to the
vector store in one batch, the registry counters are updated when a base
is active (a `KeyError` there propagates), and retriever and QA chain are
built.  Returns the chatbot state and the number of chunks added. -/
def load_documents (c : Chat) (now : Nat)
    (persisted : List (String × List String))
    (processFile : String → Except String (List String))
    (file_paths : List String)
    (document_base_name : Option String) : Except String (Chat × Nat) :=
  match load_switch_step c now persisted document_base_name with
  | .error e => .error e
  | .ok c1 =>
      let pr := process_files processFile file_paths
      let processed_chunks := pr.1
      let file_count := pr.2
      if processed_chunks.isEmpty then .ok (c1, processed_chunks.length)
      else
        let c2 := { c1 with vector_store := c1.vector_store.add_texts processed_chunks }
        match c2.current_document_base with
        | none =>
            .ok ({ c2 with retriever_set := true, qa_chain_set := true },
                 processed_chunks.length)
        | some base =>
            match update_document_base c2.manager now base (file_count : Int)
                    (processed_chunks.length : Int) file_paths with
            | .error e => .error e
            | .ok m2 =>
                .ok ({ c2 with
                       manager := m2
                       retriever_set := true
                       qa_chain_set := true },
                     processed_chunks.length)

/-- LangChain message as produced by `_convert_to_langchain_messages`. -/
inductive Message
  | human (content : String)
  | ai (content : String)
deriving Repr, DecidableEq

/-- Embedding of `RAGChatbot._convert_to_langchain_messages`: the history
rendered as alternating human/ai turn messages. -/
def convert_to_langchain_messages (hist : List (String × String)) : List Message :=
  hist.foldl (fun acc qa => acc ++ [Message.human qa.1, Message.ai qa.2]) []

/-- Embedding of `RAGChatbot._rewrite_question`.  `rewriterSvc` is the
generative-service oracle behind `rewriter_chain.invoke`; the second
component of the result counts how many times it was invoked.  With empty
history the question is returned unchanged before any service call; a
service failure is caught and falls back to the original question. -/
def rewrite_question (c : Chat)
    (rewriterSvc : List Message → String → Except String String)
    (question : String) : String × Nat :=
  if c.conversation_history.isEmpty then (question, 0)
  else
    match rewriterSvc (convert_to_langchain_messages c.conversation_history) question with
    | .ok r => (r, 1)
    | .error _ => (question, 1)

/-- Result of `RAGChatbot.ask`: the guidance string when no documents are
loaded, a successful answer, the caught-exception answer string, or (on
the streaming path) the handler/generator pair, carrying the rewritten
question the generator was built over. -/
inductive AskOutcome
  | guidance (msg : String)
  | answer (text : String)
  | errorText (msg : String)
  | stream (rewritten : String)
deriving Repr, DecidableEq

/-- Invocation counts of the external services during one `ask`:
`rewriter_calls` for the rewriting chain, `qa_calls` for the QA chain
(retrieval embedding + generation).  Building the streaming generator
performs no call by itself (it is consumed by the caller). -/
structure ServiceTrace where
  rewriter_calls : Nat
  qa_calls : Nat
deriving Repr, DecidableEq

/-- Embedding of `RAGChatbot.ask` (lines 320-353).  `qaSvc` is the oracle
behind `qa_chain.invoke` (retrieval over the rewritten question, prompt
assembly, generation); an `.error` is a raised exception, caught by the
`except` clause of `ask`.  Returns the new state, the outcome, and the
service trace. -/
def ask (c : Chat)
    (rewriterSvc : List Message → String → Except String String)
    (qaSvc : String → Except String String)
    (question : String) (streaming : Bool) :
    Chat × AskOutcome × ServiceTrace :=
  if !c.retriever_set || !c.qa_chain_set then
    (c, .guidance "Please load documents first using the load_documents method.",
     ⟨0, 0⟩)
  else
    let rw := rewrite_question c rewriterSvc question
    if streaming then
      (c, .stream rw.1, ⟨rw.2, 0⟩)
    else
      match qaSvc rw.1 with
      | .ok ans =>
          ({ c with conversation_history := c.conversation_history ++ [(question, ans)] },
           .answer ans, ⟨rw.2, 1⟩)
      | .error e =>
          (c, .errorText ("Error generating answer: " ++ e), ⟨rw.2, 1⟩)

/-- Embedding of `RAGChatbot.clear_documents`: clear the vector store and
reset retriever and QA chain to `None`.  The manager is untouched. -/
def clear_documents (c : Chat) : Chat :=
  { c with vector_store := c.vector_store.clear
           retriever_set := false
           qa_chain_set := false }

/-- Embedding of `RAGChatbot.clear_history`. -/
def clear_history (c : Chat) : Chat :=
  { c with conversation_history := [] }

/-- One rendered history entry, `f"Question {i}: {q}\nAnswer {i}: {a}\n\n"`. -/
def historyEntry (idx : Nat) (q a : String) : String :=
  "Question " ++ toString idx ++ ": " ++ q ++ "\n" ++
  "Answer " ++ toString idx ++ ": " ++ a ++ "\n\n"

/-- Embedding of `RAGChatbot._format_history_for_prompt`: render all turns
numbered from 1; when more than 3 turns exist, overwrite with an ellipsis
marker followed by the last 3 turns numbered by true position; strip. -/
def format_history_for_prompt (c : Chat) : String :=
  if c.conversation_history.isEmpty then "No previous conversation."
  else
    let hist := c.conversation_history
    let formatted :=
      hist.enum.foldl (fun s p => s ++ historyEntry (p.1 + 1) p.2.1 p.2.2) ""
    let formatted :=
      if hist.length > 3 then
        let recent := hist.drop (hist.length - 3)
        recent.enum.foldl
          (fun s p => s ++ historyEntry (hist.length - 3 + p.1 + 1) p.2.1 p.2.2)
          "...\n"
      else formatted
    formatted.trim

/-- Specification-side rendering of a run of history turns: one
"Question i / Answer i" entry per turn, numbers increasing from the given
start index.  Used to compare `format_history_for_prompt` with the words
of the spec. -/
def renderTurns : Nat → List (String × String) → String
  | _, [] => ""
  | i, (q, a) :: rest => historyEntry i q a ++ renderTurns (i + 1) rest

/-- Specification-side statement of the history-rendering rule: all turns
numbered from 1 when the history has at most 3 turns; otherwise an
ellipsis marker followed by the 3 most recent turns numbered by their
true positions `n-2, n-1, n`. -/
def historyRenderingSpec (hist : List (String × String)) : String :=
  if hist.isEmpty then "No previous conversation."
  else if hist.length ≤ 3 then (renderTurns 1 hist).trim
  else ("...\n" ++ renderTurns (hist.length - 2) (hist.drop (hist.length - 3))).trim

/-- Observation: the (num_documents, num_chunks) counters of a named base
after a registry operation, `none` when the operation failed or the base
is absent. -/
def registryCounters (r : Except String Manager) (name : String) : Option (Int × Int) :=
  match r with
  | .error _ => none
  | .ok m => (alookup m.metadata name).map (fun i => (i.num_documents, i.num_chunks))

/-- Observation: the ingested-filenames list of a named base after a
registry operation. -/
def registryDocs (r : Except String Manager) (name : String) : Option (List String) :=
  match r with
  | .error _ => none
  | .ok m => (alookup m.metadata name).map (fun i => i.documents)

/-- Two successive `update_document_base` calls with the same deltas (the
scenario of the documented non-idempotence). -/
def updateTwice (m : Manager) (now now2 : Nat) (name : String) (dd dc : Int)
    (docs : List String) : Except String Manager :=
  match update_document_base m now name dd dc docs with
  | .error e => .error e
  | .ok m1 => update_document_base m1 now2 name dd dc docs

/-- Concrete registry record used by the witnesses. -/
def infoB : BaseInfo :=
  { created_at := 0, updated_at := 0, description := "", directory := "b_0",
    num_documents := 1, num_chunks := 2, documents := ["d.pdf"] }

/-- Concrete manager with one registered base `"b"`. -/
def mgrEx : Manager :=
  { base_directory := "./document_bases", metadata := [("b", infoB)] }

/-- Concrete ready-state chatbot with one prior conversation turn. -/
def chatEx : Chat :=
  { current_document_base := some "a"
    manager := mgrEx
    vector_store := ⟨"./chroma_db", ["t"]⟩
    retriever_set := true
    qa_chain_set := true
    conversation_history := [("q0", "a0")] }

/-- The state `chatEx` reaches after switching to base `"b"`. -/
def chatSwitchedEx : Chat :=
  { chatEx with
    current_document_base := some "b"
    vector_store := ⟨"./document_bases/b_0", []⟩ }

/-- Concrete state with no retriever and no QA chain (nothing ingested). -/
def chatNoDocsEx : Chat :=
  { chatEx with retriever_set := false, qa_chain_set := false }

/-- Concrete ready-state chatbot with empty conversation history. -/
def chatNoHistEx : Chat :=
  { chatEx with conversation_history := [] }

/-- Rewriting oracle that succeeds, prefixing the question. -/
def rwOkSvc : List Message → String → Except String String :=
  fun _ q => .ok ("standalone: " ++ q)

/-- Rewriting oracle that raises. -/
def rwFailSvc : List Message → String → Except String String :=
  fun _ _ => .error "rewrite boom"

/-- QA-chain oracle that succeeds with a fixed answer. -/
def qaOkSvc : String → Except String String :=
  fun _ => .ok "A2"

/-- QA-chain oracle that raises. -/
def qaFailSvc : String → Except String String :=
  fun _ => .error "generation boom"

/-- Document-processor oracle yielding two chunks for every file. -/
def procTwoChunks : String → Except String (List String) :=
  fun _ => .ok ["c1", "c2"]

/-- The state `chatEx` reaches after `load_documents` of one file into
base `"b"`. -/
def chatLoadedEx : Chat :=
  ((load_documents chatEx 7 [] procTwoChunks ["docs/doc.pdf"] (some "b")).toOption.getD
    (chatEx, 0)).1

/-- File system on which removing base `"b"`'s directory raises. -/
def fsFailEx : FS :=
  { paths := ["./document_bases/b_0"], failing := ["./document_bases/b_0"] }

/-- File system on which removing base `"b"`'s directory succeeds. -/
def fsOkEx : FS :=
  { paths := ["./document_bases/b_0"], failing := [] }

/-- A run of `foldl` string accumulation over an enumerated turn list (the
shape of the rendering loops in `_format_history_for_prompt`) equals the
specification-side `renderTurns` starting at the corresponding index. -/
theorem foldl_historyEntry_enumFrom (l : List (String × String)) (j k : Nat) (acc : String) :
    (l.enumFrom j).foldl (fun s p => s ++ historyEntry (k + p.1 + 1) p.2.1 p.2.2) acc =
    acc ++ renderTurns (k + j + 1) l := by
  induction l generalizing j acc with
  | nil => simp [renderTurns, List.enumFrom, String.append_empty]
  | cons x rest ih =>
    obtain ⟨q, a⟩ := x
    simp only [List.enumFrom, List.foldl]
    rw [ih (j + 1)]
    have h1 : k + (j + 1) + 1 = k + j + 1 + 1 := by omega
    rw [h1, renderTurns, String.append_assoc]

/-- A successful `_switch_document_base` leaves `conversation_history`
untouched (the source never writes that field there). -/
theorem switch_keeps_history_aux (c : Chat) (persisted : List (String × List String))
    (name : String) (c1 : Chat)
    (h : switch_document_base c persisted name = .ok c1) :
    c1.conversation_history = c.conversation_history := by
  unfold switch_document_base at h
  cases hp : get_document_base_path c.manager name with
  | error e => rw [hp] at h; cases h
  | ok path => rw [hp] at h; injection h with h; subst h; rfl

/-- The base-selection prelude of `load_documents` leaves
`conversation_history` untouched on every path (no-op, switch, create). -/
theorem load_switch_keeps_history_aux (c : Chat) (now : Nat)
    (persisted : List (String × List String)) (obn : Option String) (c1 : Chat)
    (h : load_switch_step c now persisted obn = .ok c1) :
    c1.conversation_history = c.conversation_history := by
  unfold load_switch_step at h
  cases obn with
  | none => injection h with h; subst h; rfl
  | some name =>
    dsimp only at h
    by_cases hc : some name = c.current_document_base
    · rw [if_pos hc] at h; injection h with h; subst h; rfl
    · rw [if_neg hc] at h
      cases hp : get_document_base_path c.manager name with
      | ok p =>
          rw [hp] at h
          exact switch_keeps_history_aux c persisted name c1 h
      | error e =>
          rw [hp] at h
          cases hcr : create_document_base c.manager now name "" with
          | error e2 => rw [hcr] at h; cases h
          | ok pm =>
              rw [hcr] at h
              injection h with h
              subst h
              rfl

/-- A successful `load_documents` leaves `conversation_history` untouched
on every path (empty batch, no active base, registry update). -/
theorem load_keeps_history_aux (c : Chat) (now : Nat)
    (persisted : List (String × List String))
    (processFile : String → Except String (List String))
    (file_paths : List String) (obn : Option String) (c2 : Chat) (n : Nat)
    (h : load_documents c now persisted processFile file_paths obn = .ok (c2, n)) :
    c2.conversation_history = c.conversation_history := by
  unfold load_documents at h
  cases hs : load_switch_step c now persisted obn with
  | error e => rw [hs] at h; cases h
  | ok c1 =>
    rw [hs] at h
    have hc1 := load_switch_keeps_history_aux c now persisted obn c1 hs
    simp only [] at h
    by_cases he : (process_files processFile file_paths).1.isEmpty
    · rw [if_pos he] at h
      injection h with h
      rw [← hc1]
      cases h
      rfl
    · rw [if_neg he] at h
      cases hb : c1.current_document_base with
      | none =>
          rw [hb] at h
          injection h with h
          cases h
          exact hc1
      | some base =>
          rw [hb] at h
          dsimp only at h
          cases hu : update_document_base c1.manager
              now base ((process_files processFile file_paths).2 : Int)
              ((process_files processFile file_paths).1.length : Int) file_paths with
          | error e => rw [hu] at h; cases h
          | ok m2 => rw [hu] at h; injection h with h; cases h; exact hc1

/-- Writing a key through `aset` makes it the value `alookup` finds. -/
theorem alookup_aset {α : Type} (m : List (String × α)) (k : String) (v : α) :
    alookup (aset m k v) k = some v := by
  induction m with
  | nil => simp [aset, alookup]
  | cons x rest ih =>
    obtain ⟨k', v'⟩ := x
    by_cases h : k' = k
    · simp [aset, alookup, h]
    · simp [aset, alookup, h, ih]

/-- Filtering away a path removes it: the effect of a successful
`FS.rmtree` on `FS.pathExists`. -/
theorem not_mem_filter_ne_self (l : List String) (p : String) :
    p ∉ l.filter (fun q => q ≠ p) := by
  simp [List.mem_filter]

/-- C1 counterexample: from a state with one recorded turn, switching to
the registered base `"b"` succeeds and the conversation history is NOT
empty afterwards — `_switch_document_base` never clears it, so the claim
that the history is empty after a switch fails on the code. -/
theorem switch_does_not_clear_history_cex :
    switch_document_base chatEx [] "b" = .ok chatSwitchedEx ∧
    chatSwitchedEx.conversation_history = [("q0", "a0")] ∧
    ([("q0", "a0")] : List (String × String)) ≠ [] := by
  refine ⟨rfl, rfl, ?_⟩
  simp

/-- C1 (amended): switching the active document base — directly through
`_switch_document_base` or through the implicit switch/create inside
`load_documents` — leaves the conversation history exactly unchanged
(the code never clears it), so pre-switch turns remain visible to
subsequent ask prompts. -/
theorem switch_and_load_keep_history (c : Chat)
    (persisted : List (String × List String)) (name : String) (now : Nat)
    (processFile : String → Except String (List String))
    (file_paths : List String) (obn : Option String) :
    (∀ c1, switch_document_base c persisted name = .ok c1 →
       c1.conversation_history = c.conversation_history) ∧
    (∀ c2 n, load_documents c now persisted processFile file_paths obn = .ok (c2, n) →
       c2.conversation_history = c.conversation_history) :=
  ⟨fun c1 h => switch_keeps_history_aux c persisted name c1 h,
   fun c2 n h => load_keeps_history_aux c now persisted processFile file_paths obn c2 n h⟩

/-- C1 witness: concrete switch and load runs from `chatEx` keep the
pre-switch turn in the history. -/
theorem switch_and_load_keep_history_witness :
    chatSwitchedEx.conversation_history = chatEx.conversation_history ∧
    chatLoadedEx.conversation_history = chatEx.conversation_history :=
  ⟨(switch_and_load_keep_history chatEx [] "b" 0 procTwoChunks [] none).1
      chatSwitchedEx (by rfl),
   (switch_and_load_keep_history chatEx [] "b" 7 procTwoChunks ["docs/doc.pdf"]
      (some "b")).2 chatLoadedEx 2 (by rfl)⟩

/-- C2: with no active retriever or QA chain, `ask` returns the fixed
guidance string, leaves the state unchanged, does not raise, and performs
zero rewriting/embedding/generation service calls. -/
theorem ask_no_documents_guidance (c : Chat)
    (rewriterSvc : List Message → String → Except String String)
    (qaSvc : String → Except String String) (question : String) (streaming : Bool)
    (h : c.retriever_set = false ∨ c.qa_chain_set = false) :
    ask c rewriterSvc qaSvc question streaming =
      (c, .guidance "Please load documents first using the load_documents method.",
       ⟨0, 0⟩) := by
  rcases h with h | h <;> simp [ask, h]

/-- C2 witness: the guidance outcome on a concrete no-documents state. -/
theorem ask_no_documents_guidance_witness :
    ask chatNoDocsEx rwFailSvc qaOkSvc "hello" false =
      (chatNoDocsEx,
       .guidance "Please load documents first using the load_documents method.",
       ⟨0, 0⟩) :=
  ask_no_documents_guidance chatNoDocsEx rwFailSvc qaOkSvc "hello" false (Or.inl rfl)

/-- C3 counterexample: when the rewriting service raises but generation
succeeds, `ask` returns the ordinary answer — not a string describing the
error — and appends the turn, so the history does change.  The rewriting
exception is absorbed inside `_rewrite_question`, contradicting the claim
that any rewriting exception yields an error string with history
unchanged. -/
theorem ask_rewrite_failure_cex :
    (ask chatEx rwFailSvc qaOkSvc "q2" false).2.1 = AskOutcome.answer "A2" ∧
    (ask chatEx rwFailSvc qaOkSvc "q2" false).1.conversation_history =
      [("q0", "a0"), ("q2", "A2")] ∧
    (ask chatEx rwFailSvc qaOkSvc "q2" false).1.conversation_history ≠
      chatEx.conversation_history := by
  refine ⟨rfl, rfl, ?_⟩
  have h1 : (ask chatEx rwFailSvc qaOkSvc "q2" false).1.conversation_history =
      [("q0", "a0"), ("q2", "A2")] := rfl
  have h2 : chatEx.conversation_history = [("q0", "a0")] := rfl
  rw [h1, h2]
  simp

/-- C3 (amended): in the Ready state, if the QA chain (retrieval, prompt
assembly or generation) raises, `ask` catches it and returns a string
describing the error with the state — hence the conversation history —
unchanged; an exception inside rewriting is caught by the rewriter, which
falls back to the original question, and `ask` proceeds normally. -/
theorem ask_failure_handling (c : Chat)
    (rewriterSvc : List Message → String → Except String String)
    (qaSvc : String → Except String String) (question e : String)
    (hr : c.retriever_set = true) (hq : c.qa_chain_set = true) :
    (qaSvc (rewrite_question c rewriterSvc question).1 = .error e →
       ask c rewriterSvc qaSvc question false =
         (c, .errorText ("Error generating answer: " ++ e),
          ⟨(rewrite_question c rewriterSvc question).2, 1⟩)) ∧
    (rewriterSvc (convert_to_langchain_messages c.conversation_history) question =
        .error e →
       c.conversation_history.isEmpty = false →
       rewrite_question c rewriterSvc question = (question, 1)) := by
  constructor
  · intro hqa
    simp [ask, hr, hq, hqa]
  · intro hsvc hne
    simp [rewrite_question, hne, hsvc]

/-- C3 witness: a concrete failing generation yields the error string with
the state unchanged, and a concrete failing rewrite falls back to the
original question. -/
theorem ask_failure_handling_witness :
    ask chatEx rwFailSvc qaFailSvc "q2" false =
      (chatEx, .errorText "Error generating answer: generation boom", ⟨1, 1⟩) ∧
    rewrite_question chatEx rwFailSvc "q2" = ("q2", 1) :=
  ⟨(ask_failure_handling chatEx rwFailSvc qaFailSvc "q2" "generation boom" rfl rfl).1 rfl,
   (ask_failure_handling chatEx rwFailSvc qaFailSvc "q2" "rewrite boom" rfl rfl).2 rfl rfl⟩

/-- C4: on a successful non-streaming `ask`, the pair appended to the
conversation history carries the original question as asked, while the QA
chain (retrieval + generation) was invoked on the rewritten question. -/
theorem ask_appends_original_question (c : Chat)
    (rewriterSvc : List Message → String → Except String String)
    (qaSvc : String → Except String String)
    (question rewritten ans : String) (k : Nat)
    (hr : c.retriever_set = true) (hq : c.qa_chain_set = true)
    (hrw : rewrite_question c rewriterSvc question = (rewritten, k))
    (hok : qaSvc rewritten = .ok ans) :
    ask c rewriterSvc qaSvc question false =
      ({ c with conversation_history := c.conversation_history ++ [(question, ans)] },
       .answer ans, ⟨k, 1⟩) := by
  simp [ask, hr, hq, hrw, hok]

/-- C4 witness: a concrete successful ask appends the original `"q2"`,
not the rewritten `"standalone: q2"` the QA oracle received. -/
theorem ask_appends_original_question_witness :
    ask chatEx rwOkSvc qaOkSvc "q2" false =
      ({ chatEx with conversation_history := [("q0", "a0"), ("q2", "A2")] },
       .answer "A2", ⟨1, 1⟩) :=
  ask_appends_original_question chatEx rwOkSvc qaOkSvc "q2" "standalone: q2" "A2" 1
    rfl rfl rfl rfl

/-- C5: with empty history the rewriter returns the question unchanged and
issues zero generative-service calls; with non-empty history and a failing
service call it returns the original question (after one call) instead of
failing the enclosing ask. -/
theorem rewrite_empty_history_and_fallback (c : Chat)
    (rewriterSvc : List Message → String → Except String String) (question e : String) :
    (c.conversation_history.isEmpty = true →
       rewrite_question c rewriterSvc question = (question, 0)) ∧
    (c.conversation_history.isEmpty = false →
       rewriterSvc (convert_to_langchain_messages c.conversation_history) question =
         .error e →
       rewrite_question c rewriterSvc question = (question, 1)) := by
  constructor
  · intro h
    simp [rewrite_question, h]
  · intro h hsvc
    simp [rewrite_question, h, hsvc]

/-- C5 witness: concrete runs of both rewriter branches. -/
theorem rewrite_empty_history_and_fallback_witness :
    rewrite_question chatNoHistEx rwFailSvc "q1" = ("q1", 0) ∧
    rewrite_question chatEx rwFailSvc "q2" = ("q2", 1) :=
  ⟨(rewrite_empty_history_and_fallback chatNoHistEx rwFailSvc "q1" "rewrite boom").1 rfl,
   (rewrite_empty_history_and_fallback chatEx rwFailSvc "q2" "rewrite boom").2 rfl rfl⟩

/-- C6: the generation-prompt history rendering of the code equals the
specification rendering — all turns as "Question i / Answer i" pairs
numbered from 1 when the history has at most 3 turns, otherwise exactly
the 3 most recent turns prefixed by the ellipsis marker and numbered by
their true positions in the full history. -/
theorem format_history_matches_spec_rendering (c : Chat) :
    format_history_for_prompt c = historyRenderingSpec c.conversation_history := by
  unfold format_history_for_prompt historyRenderingSpec
  by_cases he : c.conversation_history.isEmpty
  · simp [he]
  · simp only [he, if_false, Bool.false_eq_true]
    by_cases hl : c.conversation_history.length > 3
    · rw [if_pos hl, if_neg (by omega)]
      congr 1
      have h := foldl_historyEntry_enumFrom
        (c.conversation_history.drop (c.conversation_history.length - 3)) 0
        (c.conversation_history.length - 3) "...\n"
      rw [show c.conversation_history.length - 3 + 0 + 1 =
            c.conversation_history.length - 2 by omega] at h
      simpa [List.enum] using h
    · rw [if_neg hl, if_pos (by omega)]
      congr 1
      have h := foldl_historyEntry_enumFrom c.conversation_history 0 0 ""
      simp only [Nat.zero_add] at h
      simpa [List.enum, String.empty_append] using h

/-- C7: for a registered base, `delete_document_base` removes the storage
directory before the registry entry: when the recursive removal raises,
the manager and file system are returned unchanged and the error
propagates; when it does not raise, the entry is erased, the call
succeeds, and the storage directory no longer exists. -/
theorem delete_storage_failure_keeps_registry (m : Manager) (fs : FS) (name : String)
    (info : BaseInfo) (h : alookup m.metadata name = some info) :
    (FS.pathExists fs (m.base_directory ++ "/" ++ info.directory) = true →
     fs.failing.contains (m.base_directory ++ "/" ++ info.directory) = true →
     delete_document_base m fs name = (m, fs, .error "OSError")) ∧
    (fs.failing.contains (m.base_directory ++ "/" ++ info.directory) = false →
     (delete_document_base m fs name).1.metadata = aerase m.metadata name ∧
     (delete_document_base m fs name).2.2 = .ok () ∧
     FS.pathExists (delete_document_base m fs name).2.1
       (m.base_directory ++ "/" ++ info.directory) = false) := by
  constructor
  · intro hex hfail
    have hex2 : m.base_directory ++ "/" ++ info.directory ∈ fs.paths := by
      simpa [FS.pathExists] using hex
    have hfail2 : m.base_directory ++ "/" ++ info.directory ∈ fs.failing := by
      simpa using hfail
    simp [delete_document_base, h, FS.pathExists, FS.rmtree, hex2, hfail2]
  · intro hfail
    have hfail2 : m.base_directory ++ "/" ++ info.directory ∉ fs.failing := by
      simpa using hfail
    by_cases hex2 : m.base_directory ++ "/" ++ info.directory ∈ fs.paths
    · refine ⟨?_, ?_, ?_⟩ <;>
        simp [delete_document_base, h, FS.pathExists, FS.rmtree, hex2, hfail2,
              not_mem_filter_ne_self]
    · refine ⟨?_, ?_, ?_⟩ <;>
        simp [delete_document_base, h, FS.pathExists, FS.rmtree, hex2, hfail2]

/-- C7 witness: on concrete file systems, a failing removal of base
`"b"`'s directory leaves manager and file system untouched, and a
successful one erases the entry and the directory. -/
theorem delete_storage_failure_keeps_registry_witness :
    delete_document_base mgrEx fsFailEx "b" = (mgrEx, fsFailEx, .error "OSError") ∧
    (delete_document_base mgrEx fsOkEx "b").1.metadata = aerase mgrEx.metadata "b" ∧
    (delete_document_base mgrEx fsOkEx "b").2.2 = .ok () ∧
    FS.pathExists (delete_document_base mgrEx fsOkEx "b").2.1
      "./document_bases/b_0" = false :=
  ⟨(delete_storage_failure_keeps_registry mgrEx fsFailEx "b" infoB rfl).1 rfl rfl,
   (delete_storage_failure_keeps_registry mgrEx fsOkEx "b" infoB rfl).2 rfl⟩

/-- C8: `update_document_base` is purely additive — counters grow by the
given deltas and the given filenames are appended — so a second identical
update doubles the deltas (not idempotent), and an absent name fails with
the KeyError message. -/
theorem update_additive_not_idempotent (m : Manager) (now now2 : Nat) (name n2 : String)
    (dd dc : Int) (docs : List String) (info : BaseInfo)
    (h : alookup m.metadata name = some info)
    (h2 : alookup m.metadata n2 = none) :
    registryCounters (update_document_base m now name dd dc docs) name =
      some (info.num_documents + dd, info.num_chunks + dc) ∧
    registryDocs (update_document_base m now name dd dc docs) name =
      some (if docs.isEmpty then info.documents
            else info.documents ++ docs.map basename) ∧
    registryCounters (updateTwice m now now2 name dd dc docs) name =
      some (info.num_documents + 2 * dd, info.num_chunks + 2 * dc) ∧
    update_document_base m now n2 dd dc docs =
      .error ("Document base '" ++ n2 ++ "' not found") := by
  refine ⟨?_, ?_, ?_, ?_⟩
  · simp [update_document_base, h, registryCounters, alookup_aset]
  · simp [update_document_base, h, registryDocs, alookup_aset]
  · simp [updateTwice, update_document_base, h, registryCounters, alookup_aset]
    omega
  · simp [update_document_base, h2]

/-- C8 witness: concrete single and double updates of base `"b"` and a
failing update of an unregistered name. -/
theorem update_additive_not_idempotent_witness :
    registryCounters (update_document_base mgrEx 7 "b" 1 2 ["path/d2.pdf"]) "b" =
      some (2, 4) ∧
    registryDocs (update_document_base mgrEx 7 "b" 1 2 ["path/d2.pdf"]) "b" =
      some ["d.pdf", "d2.pdf"] ∧
    registryCounters (updateTwice mgrEx 7 8 "b" 1 2 ["path/d2.pdf"]) "b" =
      some (3, 6) ∧
    update_document_base mgrEx 7 "nope" 1 2 ["path/d2.pdf"] =
      .error ("Document base '" ++ "nope" ++ "' not found") :=
  update_additive_not_idempotent mgrEx 7 8 "b" "nope" 1 2 ["path/d2.pdf"] infoB rfl rfl

/-- C9: `clear_documents` empties the active vector index and unsets
retriever and QA chain, while the manager — hence the registry record of
the active base, its counters, documents list and timestamps — is left
completely unchanged. -/
theorem clear_documents_resets_index_keeps_registry (c : Chat) (b : String)
    (h : c.current_document_base = some b) :
    (clear_documents c).vector_store.texts = [] ∧
    (clear_documents c).retriever_set = false ∧
    (clear_documents c).qa_chain_set = false ∧
    (clear_documents c).current_document_base = some b ∧
    (clear_documents c).manager = c.manager ∧
    alookup (clear_documents c).manager.metadata b = alookup c.manager.metadata b := by
  simp [clear_documents, VectorStore.clear, h]

/-- C9 witness: clearing the concrete state `chatEx`. -/
theorem clear_documents_resets_index_keeps_registry_witness :
    (clear_documents chatEx).vector_store.texts = [] ∧
    (clear_documents chatEx).retriever_set = false ∧
    (clear_documents chatEx).qa_chain_set = false ∧
    (clear_documents chatEx).current_document_base = some "a" ∧
    (clear_documents chatEx).manager = chatEx.manager ∧
    alookup (clear_documents chatEx).manager.metadata "a" =
      alookup chatEx.manager.metadata "a" :=
  clear_documents_resets_index_keeps_registry chatEx "a" rfl

/-- C10: a streaming `ask` in the Ready state returns the
handler/generator pair built over the rewritten question, with the
chatbot state — hence the conversation history — unchanged; the history
append happens only on the non-streaming path. -/
theorem ask_streaming_keeps_history (c : Chat)
    (rewriterSvc : List Message → String → Except String String)
    (qaSvc : String → Except String String) (question : String)
    (hr : c.retriever_set = true) (hq : c.qa_chain_set = true) :
    ask c rewriterSvc qaSvc question true =
      (c, .stream (rewrite_question c rewriterSvc question).1,
       ⟨(rewrite_question c rewriterSvc question).2, 0⟩) ∧
    (ask c rewriterSvc qaSvc question true).1.conversation_history =
      c.conversation_history := by
  constructor <;> simp [ask, hr, hq]

/-- C10 witness: a concrete streaming ask leaves `chatEx` unchanged. -/
theorem ask_streaming_keeps_history_witness :
    ask chatEx rwOkSvc qaOkSvc "q2" true =
      (chatEx, .stream "standalone: q2", ⟨1, 0⟩) ∧
    (ask chatEx rwOkSvc qaOkSvc "q2" true).1.conversation_history =
      chatEx.conversation_history :=
  ask_streaming_keeps_history chatEx rwOkSvc qaOkSvc "q2" rfl rfl
